import Mathlib

/-!
Shallow embedding of the OpenThings-Framework-Request-Proxy core
(src/src/routes/forwarder.ts): the controller registry, the per-device
pending-request table, the admission handshake, the liveness ticker,
the inbound response-frame codec and the request forwarder.

Strings on the wire are modelled as `List Char` (decoded JS strings) and
`List Nat` (byte buffers); JS `Map` objects are modelled as association
lists with first-match lookup, in-place replacement on `set` of an
existing key, and key-wise removal on `delete`.
-/

namespace OTFProxy

abbrev Key := List Char
abbrev Rid := List Char

/-- Lookup in the association-list model of a JS `Map` (first match). -/
def mapGet {α β : Type} [DecidableEq α] : List (α × β) → α → Option β
  | [], _ => none
  | (k, v) :: rest, key => if k = key then some v else mapGet rest key

/-- Membership test, as JS `Map.prototype.has`. -/
def mapHas {α β : Type} [DecidableEq α] (l : List (α × β)) (key : α) : Bool :=
  (mapGet l key).isSome

/-- Insertion, as JS `Map.prototype.set`: replace in place when the key is
present, append otherwise. -/
def mapSet {α β : Type} [DecidableEq α] : List (α × β) → α → β → List (α × β)
  | [], key, v => [(key, v)]
  | (k, w) :: rest, key, v =>
    if k = key then (key, v) :: rest else (k, w) :: mapSet rest key v

/-- Removal, as JS `Map.prototype.delete`. -/
def mapDelete {α β : Type} [DecidableEq α] (l : List (α × β)) (key : α) :
    List (α × β) :=
  l.filter (fun p => p.1 ≠ key)

/-- Port of `isValidUTF8` from src/src/routes/forwarder.ts lines 19-72
(the Markus Kuhn UTF-8 validity check over a byte buffer). -/
def isValidUTF8 : List Nat → Bool
  | [] => true
  | b :: rest =>
    if b &&& 0x80 == 0 then
      isValidUTF8 rest
    else if b &&& 0xe0 == 0xc0 then
      match rest with
      | [] => false
      | b1 :: rest2 =>
        if (b1 &&& 0xc0 != 0x80) || (b &&& 0xfe == 0xc0) then false
        else isValidUTF8 rest2
    else if b &&& 0xf0 == 0xe0 then
      match rest with
      | b1 :: b2 :: rest3 =>
        if (b1 &&& 0xc0 != 0x80) || (b2 &&& 0xc0 != 0x80)
            || (b == 0xe0 && b1 &&& 0xe0 == 0x80)
            || (b == 0xed && b1 &&& 0xe0 == 0xa0) then false
        else isValidUTF8 rest3
      | _ => false
    else if b &&& 0xf8 == 0xf0 then
      match rest with
      | b1 :: b2 :: b3 :: rest4 =>
        if (b1 &&& 0xc0 != 0x80) || (b2 &&& 0xc0 != 0x80) || (b3 &&& 0xc0 != 0x80)
            || (b == 0xf0 && b1 &&& 0xf0 == 0x80)
            || (b == 0xf4 && b1 > 0x8f) || (b > 0xf4) then false
        else isValidUTF8 rest4
      | _ => false
    else false

/-- Byte of a lowercase hexadecimal digit, the byte-level image of the
character class in the regex `RES: ([0-9a-f]\x7b4\x7d)`. -/
def isHexLowerByte (b : Nat) : Bool :=
  (48 ≤ b && b ≤ 57) || (97 ≤ b && b ≤ 102)

/-- Decoder for inbound response frames: the effect of matching the decoded
message against the source regex anchored at the start, requiring the
literal `RES: `, exactly four lowercase hex digits, then `\r\n`; the
remainder of the message is the captured body. -/
def parseRESBytes : List Nat → Option (Rid × List Nat)
  | 82 :: 69 :: 83 :: 58 :: 32 :: h1 :: h2 :: h3 :: h4 :: 13 :: 10 :: body =>
    if isHexLowerByte h1 && isHexLowerByte h2 && isHexLowerByte h3 && isHexLowerByte h4 then
      some ([Char.ofNat h1, Char.ofNat h2, Char.ofNat h3, Char.ofNat h4], body)
    else none
  | _ => none

/-- ASCII bytes of a string, for writing concrete frames. -/
def ascii (s : String) : List Nat := s.toList.map Char.toNat

/-- Digits of `n` in base 16, least significant first, as produced by the
JS `Number.prototype.toString(16)` digit loop (empty for 0). -/
def natToHexRev : Nat → List Char
  | 0 => []
  | n + 1 => Nat.digitChar ((n + 1) % 16) :: natToHexRev ((n + 1) / 16)
decreasing_by exact Nat.div_lt_self (Nat.succ_pos n) (by norm_num)

/-- JS `n.toString(16)`: lowercase hexadecimal, no padding, `0` for zero. -/
def jsToString16 (n : Nat) : List Char :=
  if n = 0 then ['0'] else (natToHexRev n).reverse

/-- JS `.padStart(4, "0")`. -/
def padStart4 (s : List Char) : List Char :=
  List.replicate (4 - s.length) '0' ++ s

/-- Request-id rendering from forwardRequest: a draw below 0x10000 rendered
as `toString(16).padStart(4, "0")`. -/
def toHex4 (n : Nat) : Rid := padStart4 (jsToString16 n)

/-- Lowercase-hexadecimal character class. -/
def isHexLowerChar (c : Char) : Bool := isHexLowerByte c.toNat

/-! ## Runtime state and observable effects -/

/-- Observable side effects of the handlers: frames written to the
controller socket, socket control, timer control, and writes to parked
HTTP responses. -/
inductive Action where
  | wsSend (sid : Nat) (frame : List Char)
  | wsTerminate (sid : Nat)
  | wsPing (sid : Nat)
  | clearTimer (key : Key)
  | httpWrite (resId : Nat) (body : List Nat)
  | httpEnd (resId : Nat)
  | httpStatus (resId : Nat) (code : Nat) (message : List Char)
  deriving DecidableEq

/-- Module-level mutable state of forwarder.ts: `connectedControllers`
(device key to socket, sockets named by `Nat` ids) and `pendingResponses`
(device key to a table from request id to the parked HTTP response,
responses named by `Nat` ids). -/
structure GlobalState where
  controllers : List (Key × Nat)
  pending : List (Key × List (Rid × Nat))
  deriving DecidableEq

/-- The `close` handler installed on an admitted socket (lines 200-206):
it deletes the device key from `connectedControllers` — regardless of
which session is stored there — and clears the liveness interval. The
`sid` argument is the session whose handler runs; the source closure
never consults it. -/
def onSocketClose (g : GlobalState) (key : Key) (_sid : Nat) :
    GlobalState × List Action :=
  ({ controllers := mapDelete g.controllers key, pending := g.pending },
   [Action.clearTimer key])

/-- The `error` handler (lines 191-198); identical observable behaviour to
the `close` handler. -/
def onSocketError (g : GlobalState) (key : Key) (_sid : Nat) :
    GlobalState × List Action :=
  ({ controllers := mapDelete g.controllers key, pending := g.pending },
   [Action.clearTimer key])

/-- One liveness tick (lines 174-189). When `alive` is false the session is
torn down: the registry entry and the whole pending table are deleted, the
socket terminated and the interval cleared. Otherwise `alive` is cleared
and a ping is sent. Returns the new state, the new `alive` flag and the
emitted actions. -/
def onLivenessTick (g : GlobalState) (key : Key) (sid : Nat) (alive : Bool) :
    GlobalState × Bool × List Action :=
  if !alive then
    ({ controllers := mapDelete g.controllers key,
       pending := mapDelete g.pending key },
     false, [Action.wsTerminate sid, Action.clearTimer key])
  else
    (g, false, [Action.wsPing sid])

/-- Data delivered by a `message` event: the `isBinary` flag together with
the (possibly concatenated) byte buffer. -/
inductive WsData where
  | binary (bytes : List Nat)
  | text (bytes : List Nat)
  deriving DecidableEq

/-- The `message` handler (lines 208-312): binary frames are ignored; text
frames are validated as UTF-8 over the whole buffer, matched against the
response regex, and looked up first by device then by request id; only a
hit mutates state, removing the entry and writing the body to the parked
response socket before ending it. -/
def onMessage (g : GlobalState) (key : Key) (data : WsData) :
    GlobalState × List Action :=
  match data with
  | WsData.binary _ => (g, [])
  | WsData.text bytes =>
    if !isValidUTF8 bytes then (g, [])
    else
      match parseRESBytes bytes with
      | none => (g, [])
      | some (rid, body) =>
        match mapGet g.pending key with
        | none => (g, [])
        | some tbl =>
          match mapGet tbl rid with
          | none => (g, [])
          | some resId =>
            ({ g with pending := mapSet g.pending key (mapDelete tbl rid) },
             [Action.httpWrite resId body, Action.httpEnd resId])

/-! ## Admission -/

/-- Outcome of `authPlugin.validateKey`: a resolved boolean or a rejected
promise. -/
inductive ValidateOutcome where
  | ok (valid : Bool)
  | error
  deriving DecidableEq

def errInvalidPath : List Char := "ERR: invalid path.".toList

def errNoKey : List Char := "ERR: deviceKey was not properly specified.".toList

def errDuplicate : List Char :=
  "ERR: A controller with this device key is already connected.".toList

def errValidating : List Char := "ERR: Error validating device key.".toList

def errInvalidKey : List Char := "ERR: Invalid device key.".toList

/-- Connect path accepted by the gateway. -/
def socketPath : List Char := "/socket/v1".toList

/-- The `connection` handler (lines 121-166) as a sequential function: path
check, deviceKey presence check, duplicate check, key validation, then
registration (registry entry plus fresh pending table). `validate` is the
outcome `await authPlugin.validateKey(deviceKey)` would produce. -/
def onConnection (g : GlobalState) (pathname : List Char)
    (deviceKey : Option (List Char)) (sid : Nat) (validate : ValidateOutcome) :
    GlobalState × List Action :=
  if pathname ≠ socketPath then
    (g, [Action.wsSend sid errInvalidPath, Action.wsTerminate sid])
  else
    match deviceKey with
    | none => (g, [Action.wsSend sid errNoKey, Action.wsTerminate sid])
    | some key =>
      if key = [] then
        (g, [Action.wsSend sid errNoKey, Action.wsTerminate sid])
      else if mapHas g.controllers key then
        (g, [Action.wsSend sid errDuplicate, Action.wsTerminate sid])
      else
        match validate with
        | ValidateOutcome.error =>
          (g, [Action.wsSend sid errValidating, Action.wsTerminate sid])
        | ValidateOutcome.ok false =>
          (g, [Action.wsSend sid errInvalidKey, Action.wsTerminate sid])
        | ValidateOutcome.ok true =>
          ({ controllers := mapSet g.controllers key sid,
             pending := mapSet g.pending key [] }, [])

/-! ## Interleaved admission (the registry check and the insertion are
separated by the awaited `validateKey` call, so two connection handlers
for the same device key can interleave at that suspension point) -/

/-- Progress of one connection handler racing on a fixed device key. -/
inductive AdmPhase where
  | start
  | passedCheck
  | inserted
  | refused
  deriving DecidableEq

/-- Registry slot for the contended key plus the two handlers' phases. -/
structure RaceState where
  reg : Option Nat
  phase0 : AdmPhase
  phase1 : AdmPhase
  deriving DecidableEq

def phaseOf (s : RaceState) (i : Nat) : AdmPhase :=
  if i = 0 then s.phase0 else s.phase1

def setPhase (s : RaceState) (i : Nat) (p : AdmPhase) : RaceState :=
  if i = 0 then { s with phase0 := p } else { s with phase1 := p }

/-- One scheduler step of handler `i`: from `start` it performs the
`connectedControllers.has` check (refusing when occupied) and then
suspends on `await validateKey`; from `passedCheck` it resumes after a
successful validation and performs `connectedControllers.set`
unconditionally. -/
def raceStep (s : RaceState) (i : Nat) : RaceState :=
  match phaseOf s i with
  | AdmPhase.start =>
    if (s.reg).isSome then setPhase s i AdmPhase.refused
    else setPhase s i AdmPhase.passedCheck
  | AdmPhase.passedCheck =>
    { setPhase s i AdmPhase.inserted with reg := some i }
  | _ => s

def raceRun (s : RaceState) : List Nat → RaceState
  | [] => s
  | i :: rest => raceRun (raceStep s i) rest

def raceInit : RaceState :=
  { reg := none, phase0 := AdmPhase.start, phase1 := AdmPhase.start }

/-- Race state in which session 0 already holds the registry slot while
session 1 has not yet performed its check. -/
def raceOccupied : RaceState :=
  { reg := some 0, phase0 := AdmPhase.start, phase1 := AdmPhase.start }

/-! ## Request forwarder -/

/-- The slice of an Express request consumed by `forwardRequest`:
`req.params.deviceKey` (percent-decoded by the router), the raw
`req.url`, method, HTTP version, header sequence, the parsed body (with
`bodyEmpty` standing for `Object.keys(req.body).length === 0`), and the
identity of the HTTP response object. -/
structure HttpReq where
  deviceKeyParam : Option (List Char)
  url : List Char
  method : List Char
  httpVersion : List Char
  headers : List (List Char × List Char)
  bodyEmpty : Bool
  body : List Char
  resId : Nat
  deriving DecidableEq

def msg401 : List Char :=
  "No device key was specified or an invalid format was used.".toList

def msg404 : List Char :=
  "Specified device does not exist or is not connected.".toList

def crlf : List Char := ['\r', '\n']

/-- Forwarded path (line 337):
`req.url.substring(("/forward/v1/" + deviceKey).length) || "/"`. -/
def forwardedPath (url : List Char) (deviceKey : List Char) : List Char :=
  let rest := url.drop ("/forward/v1/".toList ++ deviceKey).length
  if rest = [] then ['/'] else rest

/-- Serialized request (lines 339-345): request line, headers in order with
names as given, blank line, then the body (empty when the parsed body is
the empty object). -/
def buildRawRequest (req : HttpReq) (deviceKey : List Char) : List Char :=
  req.method ++ [' '] ++ forwardedPath req.url deviceKey
    ++ " HTTP/".toList ++ req.httpVersion ++ crlf
    ++ (req.headers.map (fun h => h.1 ++ ": ".toList ++ h.2 ++ crlf)).flatten
    ++ crlf ++ (if req.bodyEmpty then [] else req.body)

/-- Forward frame (line 381): the `FWD: ` prefix, the request id, `\r\n`,
then the serialized request. -/
def fwdFrame (rid : Rid) (raw : List Char) : List Char :=
  "FWD: ".toList ++ rid ++ crlf ++ raw

/-- The `forwardRequest` handler (lines 318-382). `rng` is the value of
`Math.floor(Math.random() * 0x10000)`. The drawn id is inserted into the
pending table unconditionally — there is no check against the table, no
redraw and no saturation path. -/
def forwardRequest (g : GlobalState) (req : HttpReq) (rng : Nat) :
    GlobalState × List Action :=
  match req.deviceKeyParam with
  | none => (g, [Action.httpStatus req.resId 401 msg401])
  | some key =>
    if key = [] then (g, [Action.httpStatus req.resId 401 msg401])
    else
      match mapGet g.controllers key with
      | none => (g, [Action.httpStatus req.resId 404 msg404])
      | some sid =>
        let raw := buildRawRequest req key
        let rid := toHex4 rng
        match mapGet g.pending key with
        | none => (g, [Action.httpStatus req.resId 404 msg404])
        | some tbl =>
          ({ g with pending := mapSet g.pending key (mapSet tbl rid req.resId) },
           [Action.wsSend sid (fwdFrame rid raw)])

/-! ## Percent decoding (Express decodes route parameters before they reach
`req.params`, while `req.url` stays percent-encoded) -/

/-- Value of a hexadecimal digit character. -/
def hexVal (c : Char) : Option Nat :=
  if '0' ≤ c ∧ c ≤ '9' then some (c.toNat - 48)
  else if 'a' ≤ c ∧ c ≤ 'f' then some (c.toNat - 87)
  else if 'A' ≤ c ∧ c ≤ 'F' then some (c.toNat - 55)
  else none

/-- Percent decoding of a route parameter: each valid `%hh` escape becomes
one character, everything else is copied. -/
def percentDecode : List Char → List Char
  | [] => []
  | '%' :: h1 :: h2 :: rest =>
    match hexVal h1, hexVal h2 with
    | some a, some b => Char.ofNat (16 * a + b) :: percentDecode rest
    | _, _ => '%' :: percentDecode (h1 :: h2 :: rest)
  | c :: rest => c :: percentDecode rest

/-! ## Concrete states for evaluating the handlers -/

def keyEx : Key := "k1".toList

def ridEx : Rid := "0001".toList

/-- State with one admitted controller for `keyEx` (socket 0) and one
in-flight forwarded request `ridEx` parked on HTTP response 7. -/
def gTear : GlobalState :=
  { controllers := [(keyEx, 0)], pending := [(keyEx, [(ridEx, 7)])] }

/-- State in which device key `k6` is held by a freshly reconnected session
(socket 2) while the older session (socket 1) has not torn down yet. -/
def gDup : GlobalState :=
  { controllers := [("k6".toList, 2)], pending := [] }

/-- Response frame whose header is terminated by a bare LF. -/
def lfFrame : List Nat := ascii ("RES: 0001") ++ [10] ++ ascii ("OK")

/-- Response frame with the CRLF terminator the source regex requires. -/
def crlfFrame : List Nat := ascii ("RES: 0001") ++ [13, 10] ++ ascii ("OK")

/-- Response frame with a well-formed header and a body that is not valid
UTF-8 (a lone 0xff byte). -/
def mixedFrame : List Nat := ascii ("RES: 0001") ++ [13, 10] ++ [255]

/-- A GET request routed to device `k4`. -/
def reqEx : HttpReq :=
  { deviceKeyParam := some ("k4".toList)
    url := "/forward/v1/k4/x".toList
    method := "GET".toList
    httpVersion := "1.1".toList
    headers := [("host".toList, "example".toList)]
    bodyEmpty := true
    body := []
    resId := 11 }

/-- State for `k4` whose pending table already holds the id `0000`
(= `toHex4 0`) for HTTP response 9. -/
def gFwd : GlobalState :=
  { controllers := [("k4".toList, 3)], pending := [("k4".toList, [(toHex4 0, 9)])] }

/-- Conditions under which, per claim C9, a message must be discarded:
binary data, invalid UTF-8, a regex mismatch, or a device/request-id miss
in the pending tables. -/
def discards (g : GlobalState) (key : Key) : WsData → Prop
  | WsData.binary _ => True
  | WsData.text b =>
    isValidUTF8 b = false ∨ parseRESBytes b = none ∨
      ∃ rid body, parseRESBytes b = some (rid, body) ∧
        (mapGet g.pending key = none ∨
          ∃ tbl, mapGet g.pending key = some tbl ∧ mapGet tbl rid = none)

/-! ## Map lemmas -/

theorem mapGet_mapSet_self {α β : Type} [DecidableEq α] (l : List (α × β)) (k : α) (v : β) :
    mapGet (mapSet l k v) k = some v := by
  induction l with
  | nil => simp [mapSet, mapGet]
  | cons p t ih =>
    obtain ⟨a, b⟩ := p
    by_cases hk : a = k
    · simp [mapSet, hk, mapGet]
    · simp [mapSet, hk, mapGet, ih]

theorem mapDelete_idem {α β : Type} [DecidableEq α] (l : List (α × β)) (k : α) :
    mapDelete (mapDelete l k) k = mapDelete l k := by
  simp [mapDelete, List.filter_filter]

/-! ## Hexadecimal rendering lemmas -/

theorem natToHexRev_length_le (k n : Nat) (h : n < 16 ^ k) :
    (natToHexRev n).length ≤ k := by
  induction k generalizing n with
  | zero =>
    have : n = 0 := by simpa using h
    subst this
    simp [natToHexRev]
  | succ k ih =>
    cases n with
    | zero => simp [natToHexRev]
    | succ m =>
      simp only [natToHexRev, List.length_cons]
      have hdiv : (m + 1) / 16 < 16 ^ k := by
        have hlt : m + 1 < 16 * 16 ^ k := by
          rw [pow_succ] at h
          omega
        exact Nat.div_lt_of_lt_mul hlt
      exact Nat.succ_le_succ (ih _ hdiv)

theorem natToHexRev_mem (n : Nat) : ∀ c ∈ natToHexRev n, isHexLowerChar c = true := by
  induction n using Nat.strong_induction_on with
  | _ n ih =>
    cases n with
    | zero => simp [natToHexRev]
    | succ m =>
      intro c hc
      simp only [natToHexRev, List.mem_cons] at hc
      rcases hc with rfl | hc
      · have hd : (m + 1) % 16 < 16 := Nat.mod_lt _ (by norm_num)
        exact (by decide : ∀ d, d < 16 → isHexLowerChar (Nat.digitChar d) = true) _ hd
      · exact ih ((m + 1) / 16) (Nat.div_lt_self (Nat.succ_pos m) (by norm_num)) c hc

theorem toHex4_length (n : Nat) (h : n < 65536) : (toHex4 n).length = 4 := by
  have hle : (jsToString16 n).length ≤ 4 := by
    unfold jsToString16
    split
    · simp
    · simpa using natToHexRev_length_le 4 n (by norm_num; omega)
  simp only [toHex4, padStart4, List.length_append, List.length_replicate]
  omega

theorem toHex4_chars (n : Nat) : ∀ c ∈ toHex4 n, isHexLowerChar c = true := by
  intro c hc
  simp only [toHex4, padStart4, List.mem_append, List.mem_replicate] at hc
  rcases hc with ⟨-, rfl⟩ | hc
  · decide
  · unfold jsToString16 at hc
    split at hc
    · simp at hc
      subst hc
      decide
    · rw [List.mem_reverse] at hc
      exact natToHexRev_mem n c hc

/-! ## Percent-decoding lemmas -/

theorem percentDecode_mid (h1 h2 : Char) (rest : List Char)
    (h : ∀ (a b : Nat), hexVal h1 = some a → hexVal h2 = some b → False) :
    percentDecode ('%' :: h1 :: h2 :: rest) = '%' :: percentDecode (h1 :: h2 :: rest) := by
  rcases hh1 : hexVal h1 with _ | a <;> rcases hh2 : hexVal h2 with _ | b <;>
    simp only [percentDecode, hh1, hh2]
  exact (h a b hh1 hh2).elim

theorem percentDecode_length_le (l : List Char) : (percentDecode l).length ≤ l.length := by
  induction l using percentDecode.induct with
  | case1 => simp [percentDecode]
  | case2 h1 h2 rest a b hb ha ih =>
    simp only [percentDecode, ha, hb, List.length_cons]
    omega
  | case3 h1 h2 rest hnab ih =>
    rw [percentDecode_mid h1 h2 rest hnab]
    simp only [List.length_cons] at ih ⊢
    omega
  | case4 c rest hne ih =>
    rw [percentDecode.eq_3 c rest hne]
    simp only [List.length_cons]
    omega

theorem percentDecode_no_escape (l : List Char) (h : '%' ∉ l) : percentDecode l = l := by
  induction l using percentDecode.induct with
  | case1 => rfl
  | case2 h1 h2 rest a b hb ha ih => simp at h
  | case3 h1 h2 rest hnab ih => simp at h
  | case4 c rest hne ih =>
    rw [percentDecode.eq_3 c rest hne]
    simp only [List.mem_cons, not_or] at h
    rw [ih h.2]

/-! ## Claim C1 -/

/-- C1, counterexample: on socket close of the session for `keyEx`, whose
pending table holds entry `ridEx`, the entry is still present afterwards
and the only emitted action clears the timer — no 502 status is written,
no response stream is closed, and the entry is not removed, contradicting
the claim that every pending entry is resolved to a 502 upstream-failure
response before the session leaves the registry. -/
theorem teardown_resolves_pending_counterexample :
    (onSocketClose gTear keyEx 0).1.pending = [(keyEx, [(ridEx, 7)])]
    ∧ (onSocketClose gTear keyEx 0).2 = [Action.clearTimer keyEx] := by
  decide

/-- C1 (amended): on socket close or error the handler removes the device
key from the registry and clears the liveness timer only; the pending
table is left untouched and no HTTP status, body write or stream close is
emitted. On liveness-dead teardown the device's whole pending table is
additionally dropped from the global map, likewise without resolving any
entry. -/
theorem teardown_leaves_pending_unresolved (g : GlobalState) (key : Key)
    (sid r code : Nat) (m : List Char) (b : List Nat) :
    (onSocketClose g key sid).1.pending = g.pending
    ∧ (onSocketClose g key sid).1.controllers = mapDelete g.controllers key
    ∧ Action.httpStatus r code m ∉ (onSocketClose g key sid).2
    ∧ Action.httpWrite r b ∉ (onSocketClose g key sid).2
    ∧ Action.httpEnd r ∉ (onSocketClose g key sid).2
    ∧ onSocketError g key sid = onSocketClose g key sid
    ∧ (onLivenessTick g key sid false).1
        = { controllers := mapDelete g.controllers key,
            pending := mapDelete g.pending key }
    ∧ Action.httpStatus r code m ∉ (onLivenessTick g key sid false).2.2
    ∧ Action.httpWrite r b ∉ (onLivenessTick g key sid false).2.2
    ∧ Action.httpEnd r ∉ (onLivenessTick g key sid false).2.2 := by
  simp [onSocketClose, onSocketError, onLivenessTick]

/-- Witness for the amended C1 theorem at a concrete state. -/
theorem teardown_leaves_pending_unresolved_witness :
    (onSocketClose gTear keyEx 0).1.pending = gTear.pending :=
  (teardown_leaves_pending_unresolved gTear keyEx 0 0 502 [] []).1

/-! ## Claim C2 -/

/-- C2, counterexample: under the schedule check-A, check-B, insert-A,
insert-B — possible because the registry check and the insertion are
separated by the awaited `validateKey` call — both racing admissions on
the same device key end up inserted and the registry holds the second
session, so the incumbent was overwritten and neither handler was refused,
contradicting the claimed atomic test-and-set. -/
theorem registry_race_counterexample :
    raceRun raceInit [0, 1, 0, 1]
      = { reg := some 1, phase0 := AdmPhase.inserted,
          phase1 := AdmPhase.inserted } := by
  decide

/-- C2 (amended): the duplicate check happens before the awaited
`validateKey` and the insertion after it, without re-checking. An
admission whose check step runs while the registry slot is occupied is
refused and leaves the registry unchanged; but two admissions that both
pass the check before either inserts (schedule `[0, 1, 0, 1]`) are both
admitted, the later insertion overwriting the earlier one. -/
theorem registry_check_then_set (s : RaceState) (i : Nat)
    (h : phaseOf s i = AdmPhase.start) (hr : s.reg ≠ none) :
    (phaseOf (raceStep s i) i = AdmPhase.refused ∧ (raceStep s i).reg = s.reg)
    ∧ (raceRun raceInit [0, 1, 0, 1]).phase0 = AdmPhase.inserted
    ∧ (raceRun raceInit [0, 1, 0, 1]).phase1 = AdmPhase.inserted
    ∧ (raceRun raceInit [0, 1, 0, 1]).reg = some 1 := by
  refine ⟨?_, by decide, by decide, by decide⟩
  rcases hreg : s.reg with _ | sid
  · exact absurd hreg hr
  · by_cases hi : i = 0
    · subst hi
      simp [phaseOf] at h
      simp [raceStep, phaseOf, h, hreg, setPhase]
    · simp [phaseOf, hi] at h
      simp [raceStep, phaseOf, h, hreg, setPhase, hi]

/-- Witness for the amended C2 theorem: a second admission checking while
session 0 holds the slot is refused. -/
theorem registry_check_then_set_witness :
    phaseOf (raceStep raceOccupied 1) 1 = AdmPhase.refused :=
  ((registry_check_then_set raceOccupied 1 (by decide) (by decide)).1).1

/-! ## Claim C3 -/

/-- C3, counterexample: the frame `RES: 0001\nOK` (LF only, no CR) is valid
UTF-8 yet fails the source regex, which demands `\r\n` after the request
id; with the id `0001` pending, the message handler discards the frame and
writes nothing, contradicting the claim that an LF-terminated header is
accepted and delivers body `OK`. -/
theorem response_lf_frame_counterexample :
    isValidUTF8 lfFrame = true
    ∧ parseRESBytes lfFrame = none
    ∧ onMessage gTear keyEx (WsData.text lfFrame) = (gTear, []) := by
  decide

/-- C3 (amended): a response frame's header portion begins `RES: ` followed
by four lowercase hex digits and is terminated by `\r\n` (CRLF, not a bare
LF); everything after the two-byte terminator is the body, forwarded
verbatim, and the CRLF frame `RES: 0001\r\nOK` delivers body `OK` to the
parked response. -/
theorem response_frame_crlf_delimited (h1 h2 h3 h4 : Nat) (body : List Nat)
    (v1 : isHexLowerByte h1 = true) (v2 : isHexLowerByte h2 = true)
    (v3 : isHexLowerByte h3 = true) (v4 : isHexLowerByte h4 = true) :
    parseRESBytes (82 :: 69 :: 83 :: 58 :: 32 :: h1 :: h2 :: h3 :: h4 :: 13 :: 10 :: body)
      = some ([Char.ofNat h1, Char.ofNat h2, Char.ofNat h3, Char.ofNat h4], body)
    ∧ onMessage gTear keyEx (WsData.text crlfFrame)
      = ({ controllers := gTear.controllers, pending := [(keyEx, [])] },
         [Action.httpWrite 7 (ascii ("OK")), Action.httpEnd 7]) := by
  constructor
  · simp [parseRESBytes, v1, v2, v3, v4]
  · decide

/-- Witness for the amended C3 theorem at the bytes of `RES: 0001\r\nOK`. -/
theorem response_frame_crlf_delimited_witness :
    parseRESBytes (82 :: 69 :: 83 :: 58 :: 32 :: 48 :: 48 :: 48 :: 49 :: 13 :: 10 :: [79, 75])
      = some (['0', '0', '0', '1'], [79, 75]) :=
  (response_frame_crlf_delimited 48 48 48 49 [79, 75]
    (by decide) (by decide) (by decide) (by decide)).1

/-! ## Claim C4 -/

/-- C4, counterexample: with `toHex4 0` already pending for device `k4`
(parked response 9) and the random draw returning 0, the forwarder still
inserts the colliding id — overwriting the predecessor entry — and sends
the frame; no redraw happens and no 503 is returned, contradicting the
claim that a drawn id is never in the pending table at insertion. -/
theorem forward_id_reuse_counterexample :
    mapHas [(toHex4 0, 9)] (toHex4 0) = true
    ∧ (forwardRequest gFwd reqEx 0).1.pending = [("k4".toList, [(toHex4 0, 11)])]
    ∧ (forwardRequest gFwd reqEx 0).2
        = [Action.wsSend 3 (fwdFrame (toHex4 0) (buildRawRequest reqEx ("k4".toList)))] := by
  decide

/-- C4 (amended): the forwarder draws a single id and inserts the pending
entry under it unconditionally — the table is never consulted about the
drawn id, a collision silently overwrites the existing entry, and there is
no redraw and no 503 saturation path. -/
theorem forward_single_draw_overwrites (g : GlobalState) (req : HttpReq)
    (rng : Nat) (key : Key) (sid : Nat) (tbl : List (Rid × Nat))
    (hk : req.deviceKeyParam = some key) (hne : key ≠ [])
    (hc : mapGet g.controllers key = some sid)
    (hp : mapGet g.pending key = some tbl) :
    mapGet (forwardRequest g req rng).1.pending key
      = some (mapSet tbl (toHex4 rng) req.resId)
    ∧ mapGet (mapSet tbl (toHex4 rng) req.resId) (toHex4 rng) = some req.resId
    ∧ (forwardRequest g req rng).2
        = [Action.wsSend sid (fwdFrame (toHex4 rng) (buildRawRequest req key))]
    ∧ ∀ r c m, Action.httpStatus r c m ∉ (forwardRequest g req rng).2 := by
  have hfwd : forwardRequest g req rng
      = ({ g with pending := mapSet g.pending key (mapSet tbl (toHex4 rng) req.resId) },
         [Action.wsSend sid (fwdFrame (toHex4 rng) (buildRawRequest req key))]) := by
    simp [forwardRequest, hk, hne, hc, hp]
  rw [hfwd]
  exact ⟨mapGet_mapSet_self _ _ _, mapGet_mapSet_self _ _ _, rfl, by simp⟩

/-- Witness for the amended C4 theorem at the colliding draw. -/
theorem forward_single_draw_overwrites_witness :
    mapGet (forwardRequest gFwd reqEx 0).1.pending ("k4".toList)
      = some (mapSet [(toHex4 0, 9)] (toHex4 0) 11) :=
  (forward_single_draw_overwrites gFwd reqEx 0 ("k4".toList) 3 [(toHex4 0, 9)]
    (by decide) (by decide) (by decide) (by decide)).1

/-! ## Claim C5 -/

/-- C5, counterexample: the frame `RES: 0001\r\n` followed by the byte 0xff
has a well-formed header and would match the regex, but the handler
validates UTF-8 over the whole buffer, so the frame is discarded even
though the id `0001` is pending — contradicting the claim that a
well-formed header with a non-UTF-8 body is still delivered. -/
theorem utf8_body_validation_counterexample :
    parseRESBytes mixedFrame = some (ridEx, [255])
    ∧ isValidUTF8 mixedFrame = false
    ∧ onMessage gTear keyEx (WsData.text mixedFrame) = (gTear, []) := by
  decide

/-- C5 (amended): UTF-8 well-formedness is validated over the entire
inbound frame — header and body together — before regex matching; any text
frame whose buffer is not valid UTF-8 is discarded without touching the
session state, including frames whose header alone is well formed. -/
theorem utf8_whole_frame_validation (g : GlobalState) (key : Key)
    (b : List Nat) (h : isValidUTF8 b = false) :
    onMessage g key (WsData.text b) = (g, [])
    ∧ isValidUTF8 mixedFrame = false
    ∧ parseRESBytes mixedFrame ≠ none := by
  refine ⟨?_, by decide, by decide⟩
  simp [onMessage, h]

/-- Witness for the amended C5 theorem at the mixed frame. -/
theorem utf8_whole_frame_validation_witness :
    onMessage gTear keyEx (WsData.text mixedFrame) = (gTear, []) :=
  (utf8_whole_frame_validation gTear keyEx mixedFrame (by decide)).1

/-! ## Claim C6 -/

/-- C6, counterexample: device key `k6` is held by the freshly reconnected
session 2, yet the close handler of the stale session 1 removes the
registry entry anyway — the stored instance is never compared — so a late
teardown does evict a freshly reconnected session, contradicting the
claimed same-instance guard. -/
theorem registry_remove_unconditional_counterexample :
    mapGet gDup.controllers ("k6".toList) = some 2
    ∧ (onSocketClose gDup ("k6".toList) 1).1.controllers = [] := by
  decide

/-- C6 (amended): teardown removal is keyed only by device key — the close
handler deletes whatever session is stored under the key, whichever
session's handler runs — and it is idempotent. -/
theorem registry_remove_by_key_idempotent (g : GlobalState) (key : Key)
    (sid sid2 : Nat) :
    (onSocketClose g key sid).1.controllers = mapDelete g.controllers key
    ∧ (onSocketClose (onSocketClose g key sid).1 key sid2).1
        = (onSocketClose g key sid).1 := by
  refine ⟨rfl, ?_⟩
  simp [onSocketClose, mapDelete_idem]

/-! ## Claim C7 -/

/-- C7: admission performs its checks in strict order — path, deviceKey
presence and non-emptiness, duplicate registration, key validation — and
each failing step emits exactly one text frame carrying that step's exact
`ERR:` message followed by a socket close, leaving the state (and hence
any incumbent session) untouched; only full success registers the session
and creates its empty pending table. -/
theorem admission_strict_order (g : GlobalState) (pathname : List Char)
    (dk : Option (List Char)) (sid : Nat) (v : ValidateOutcome) :
    (pathname ≠ socketPath →
      onConnection g pathname dk sid v
        = (g, [Action.wsSend sid errInvalidPath, Action.wsTerminate sid]))
    ∧ (pathname = socketPath → dk = none ∨ dk = some [] →
      onConnection g pathname dk sid v
        = (g, [Action.wsSend sid errNoKey, Action.wsTerminate sid]))
    ∧ (∀ key, pathname = socketPath → dk = some key → key ≠ [] →
        mapHas g.controllers key = true →
      onConnection g pathname dk sid v
        = (g, [Action.wsSend sid errDuplicate, Action.wsTerminate sid]))
    ∧ (∀ key, pathname = socketPath → dk = some key → key ≠ [] →
        mapHas g.controllers key = false → v = ValidateOutcome.error →
      onConnection g pathname dk sid v
        = (g, [Action.wsSend sid errValidating, Action.wsTerminate sid]))
    ∧ (∀ key, pathname = socketPath → dk = some key → key ≠ [] →
        mapHas g.controllers key = false → v = ValidateOutcome.ok false →
      onConnection g pathname dk sid v
        = (g, [Action.wsSend sid errInvalidKey, Action.wsTerminate sid]))
    ∧ (∀ key, pathname = socketPath → dk = some key → key ≠ [] →
        mapHas g.controllers key = false → v = ValidateOutcome.ok true →
      onConnection g pathname dk sid v
        = ({ controllers := mapSet g.controllers key sid,
             pending := mapSet g.pending key [] }, [])) := by
  refine ⟨?_, ?_, ?_, ?_, ?_, ?_⟩
  · intro hp
    simp [onConnection, hp]
  · rintro hp (rfl | rfl) <;> simp [onConnection, hp]
  · rintro key hp rfl hne hhas
    simp [onConnection, hp, hne, hhas]
  · rintro key hp rfl hne hhas rfl
    simp [onConnection, hp, hne, hhas]
  · rintro key hp rfl hne hhas rfl
    simp [onConnection, hp, hne, hhas]
  · rintro key hp rfl hne hhas rfl
    simp [onConnection, hp, hne, hhas]

/-- Witness for C7: a connection with a wrong path is refused with the
invalid-path error frame and terminated, without touching the state. -/
theorem admission_strict_order_witness :
    onConnection gTear ("/bad".toList) none 5 ValidateOutcome.error
      = (gTear, [Action.wsSend 5 errInvalidPath, Action.wsTerminate 5]) :=
  (admission_strict_order gTear ("/bad".toList) none 5 ValidateOutcome.error).1
    (by decide)

/-! ## Claim C8 -/

/-- C8: every accepted forward writes to the controller socket exactly the
frame `FWD: <requestId>\r\n<METHOD> <path> HTTP/<httpVersion>\r\n` followed
by the headers in order with uncanonicalized names, the `\r\n\r\n`
sentinel, and the body (empty when the upstream parser yields no body);
the request id is exactly four lowercase hexadecimal characters, and the
path is the request URL minus the `/forward/v1/:deviceKey` prefix, or `/`
when that remainder is empty. -/
theorem forward_frame_format (g : GlobalState) (req : HttpReq) (rng : Nat)
    (key : Key) (sid : Nat) (tbl : List (Rid × Nat))
    (hk : req.deviceKeyParam = some key) (hne : key ≠ [])
    (hc : mapGet g.controllers key = some sid)
    (hp : mapGet g.pending key = some tbl) (hrng : rng < 65536) :
    (forwardRequest g req rng).2
      = [Action.wsSend sid (fwdFrame (toHex4 rng) (buildRawRequest req key))]
    ∧ fwdFrame (toHex4 rng) (buildRawRequest req key)
        = "FWD: ".toList ++ toHex4 rng ++ crlf ++ req.method ++ [' ']
          ++ forwardedPath req.url key ++ " HTTP/".toList ++ req.httpVersion ++ crlf
          ++ (req.headers.map (fun h => h.1 ++ ": ".toList ++ h.2 ++ crlf)).flatten
          ++ crlf ++ (if req.bodyEmpty then [] else req.body)
    ∧ (toHex4 rng).length = 4
    ∧ (∀ c ∈ toHex4 rng, isHexLowerChar c = true)
    ∧ forwardedPath req.url key
        = (if req.url.drop (12 + key.length) = [] then ['/']
           else req.url.drop (12 + key.length)) := by
  refine ⟨?_, ?_, toHex4_length rng hrng, toHex4_chars rng, ?_⟩
  · simp [forwardRequest, hk, hne, hc, hp]
  · simp [fwdFrame, buildRawRequest, List.append_assoc]
  · have hpre : ("/forward/v1/".toList).length = 12 := rfl
    have h12 : ("/forward/v1/".toList ++ key).length = 12 + key.length := by
      rw [List.length_append, hpre]
    rw [forwardedPath.eq_1, h12]

/-- Witness for C8 at the concrete request `reqEx` and draw 0. -/
theorem forward_frame_format_witness :
    (forwardRequest gFwd reqEx 0).2
      = [Action.wsSend 3 (fwdFrame (toHex4 0) (buildRawRequest reqEx ("k4".toList)))] :=
  (forward_frame_format gFwd reqEx 0 ("k4".toList) 3 [(toHex4 0, 9)]
    (by decide) (by decide) (by decide) (by decide) (by decide)).1

/-! ## Claim C9 -/

/-- C9: every message on an admitted session that is binary, fails UTF-8
decoding, fails the response-frame format, or carries a request id (or
device) missing from the pending tables is discarded: the handler returns
the state unchanged and performs no write, so in-flight legitimate pending
requests are unaffected. -/
theorem invalid_frames_discarded (g : GlobalState) (key : Key) (d : WsData)
    (h : discards g key d) : onMessage g key d = (g, []) := by
  cases d with
  | binary b => rfl
  | text b =>
    simp only [discards] at h
    rcases h with hv | hparse | ⟨rid, body, hp, hmiss⟩
    · simp [onMessage, hv]
    · by_cases hv : isValidUTF8 b <;> simp [onMessage, hv, hparse]
    · rcases hmiss with hnone | ⟨tbl, htbl, hrid⟩
      · by_cases hv : isValidUTF8 b <;> simp [onMessage, hv, hp, hnone]
      · by_cases hv : isValidUTF8 b <;> simp [onMessage, hv, hp, htbl, hrid]

/-- Witness for C9: a binary frame leaves the state untouched and produces
no action. -/
theorem invalid_frames_discarded_witness :
    onMessage gTear keyEx (WsData.binary []) = (gTear, []) :=
  invalid_frames_discarded gTear keyEx (WsData.binary []) trivial

/-! ## Claim C10 -/

/-- C10: the forwarder drops from the raw (still percent-encoded) URL a
prefix whose length is 12 (the length of `/forward/v1/`) plus the length
of the percent-decoded device key, falling back to `/` when the remainder
is empty; consequently, for a nonempty suffix, the computed path equals
the URL suffix after the device-key segment exactly when the decoded key
has the same length as its encoded form — in particular always, when the
key contains no percent escapes. -/
theorem forwarded_path_decoded_length (encKey suffix : List Char)
    (hs : suffix ≠ []) :
    (forwardedPath ("/forward/v1/".toList ++ encKey ++ suffix)
        (percentDecode encKey) = suffix
      ↔ (percentDecode encKey).length = encKey.length)
    ∧ ('%' ∉ encKey →
      forwardedPath ("/forward/v1/".toList ++ encKey ++ suffix)
        (percentDecode encKey) = suffix) := by
  have hd : (percentDecode encKey).length ≤ encKey.length :=
    percentDecode_length_le encKey
  have hdrop : ("/forward/v1/".toList ++ encKey ++ suffix).drop
      ("/forward/v1/".toList ++ percentDecode encKey).length
      = encKey.drop (percentDecode encKey).length ++ suffix := by
    rw [List.append_assoc, List.length_append, List.drop_append,
      List.drop_append_eq_append_drop,
      Nat.sub_eq_zero_of_le hd, List.drop_zero]
  have hpath : forwardedPath ("/forward/v1/".toList ++ encKey ++ suffix)
      (percentDecode encKey)
      = encKey.drop (percentDecode encKey).length ++ suffix := by
    rw [forwardedPath]
    simp only [hdrop]
    rw [if_neg (by simp [hs])]
  have main : forwardedPath ("/forward/v1/".toList ++ encKey ++ suffix)
      (percentDecode encKey) = suffix
      ↔ (percentDecode encKey).length = encKey.length := by
    rw [hpath]
    constructor
    · intro heq
      have hnil : encKey.drop (percentDecode encKey).length = [] :=
        List.self_eq_append_left.mp heq.symm
      have hlen : encKey.length - (percentDecode encKey).length = 0 := by
        rw [← List.length_drop, hnil]
        rfl
      omega
    · intro heq
      rw [List.drop_eq_nil_of_le (le_of_eq heq.symm), List.nil_append]
  refine ⟨main, fun hnp => main.mpr ?_⟩
  rw [percentDecode_no_escape encKey hnp]

/-- Witness for C10 at an escape-free key. -/
theorem forwarded_path_decoded_length_witness :
    forwardedPath ("/forward/v1/".toList ++ "k4".toList ++ "/x".toList)
      (percentDecode ("k4".toList)) = "/x".toList :=
  (forwarded_path_decoded_length ("k4".toList) ("/x".toList) (by decide)).2
    (by decide)

end OTFProxy
